import Mathlib

/-!
# RailMap cost/time simulator: a shallow embedding

This file embeds the fee/settlement derivation logic of the `CostTimeSimulator`
component of the RailMap repository, together with the data model it consumes
(`FeeModel`, `SettlementConfig`, `EconomicsConfig`, `Scenario` from the shared
type declarations), and proves the claims of the specification against it.

Modelling conventions:
* JavaScript numbers are modelled as rationals (`ℚ`); display-only currency
  formatting is out of scope.
* Fields typed `number | string` in the source are modelled by `JSVal`;
  optional fields are `Option`s, with `none` standing for `undefined`.
* JavaScript truthiness is modelled explicitly: `0`, the empty string, and
  `undefined` are falsy, everything else of these types is truthy.
* `feeModel.type` is a plain string at runtime (TypeScript union types are
  erased), so it is modelled as `String`; this keeps the behaviour on
  unrecognized variant tags observable.
* Presentational fields of `Scenario` (id, title, nodes, edges, metrics,
  failure/rationale lists, …) play no role in the simulator logic and are
  omitted from the embedding.
-/

/-- A JavaScript `number | string` value; numbers are modelled as rationals. -/
inductive JSVal where
  | num (q : ℚ)
  | str (s : String)
  deriving DecidableEq

/-- JavaScript truthiness of a `number | string` value:
a number is truthy iff nonzero, a string iff non-empty. -/
def JSVal.truthy : JSVal → Bool
  | .num q => q != 0
  | .str s => s != ""

/-- JavaScript truthiness of an optional `number | string` field
(`undefined` is falsy). -/
def optValTruthy : Option JSVal → Bool
  | some v => v.truthy
  | none => false

/-- JavaScript truthiness of an optional string field
(`undefined` and the empty string are falsy). -/
def optStrTruthy : Option String → Bool
  | some s => s != ""
  | none => false

/-- The JavaScript idiom `x || 0` on an optional numeric field. For a numeric
`x` this coincides with defaulting, since the only falsy number is `0` and the
fallback is `0` itself. -/
def numOrZero (x : Option ℚ) : ℚ := x.getD 0

/-- The `FeeModel` record of the source data model: a discriminant string and
optional numeric fields, only some of which are relevant to each variant. -/
structure FeeModel where
  type : String
  percent : Option ℚ := none
  fixed : Option ℚ := none
  flat : Option ℚ := none
  cap : Option ℚ := none
  flatDomestic : Option ℚ := none
  flatInternational : Option ℚ := none
  internationalMultiplier : Option ℚ := none
  deriving DecidableEq

/-- The `SettlementConfig` record: `domesticDays` is `number | string`,
`internationalDays` and `settlementTimingLabel` are optional. -/
structure SettlementConfig where
  domesticDays : JSVal
  internationalDays : Option JSVal := none
  settlementTimingLabel : Option String := none
  deriving DecidableEq

/-- The `EconomicsConfig` record pairing one fee model with one settlement
configuration. -/
structure EconomicsConfig where
  feeModel : FeeModel
  settlement : SettlementConfig
  deriving DecidableEq

/-- The `Scenario` record, restricted to the fields consumed by the
simulator: the optional `transactionType` string and the optional
economics configuration. -/
structure Scenario where
  transactionType : Option String := none
  economics : Option EconomicsConfig := none
  deriving DecidableEq

/-- The derived internationality flag (component source, lines 39–41):
`!!economics.settlement.internationalDays || scenario.transactionType ===
'International' || (economics.feeModel.type === 'flat_with_international')`. -/
def isInternational (scenario : Scenario) (economics : EconomicsConfig) : Bool :=
  optValTruthy economics.settlement.internationalDays ||
  decide (scenario.transactionType = some "International") ||
  decide (economics.feeModel.type = "flat_with_international")

/-- The per-transaction fee (component source, lines 43–68): branch on
`feeModel.type`, read optional numbers with `|| 0`, cap only when `cap` is
defined (`cap !== undefined`), apply the wire multiplier only when it is
truthy, and clamp the result with `Math.max(0, fee)`. The source's guard
`if (!economics.feeModel) return 0` is vacuous because `feeModel` is a
required object field (objects are always truthy) and is not modelled. -/
def feePerTransaction (amount : ℚ) (feeModel : FeeModel) (isIntl : Bool) : ℚ :=
  let fee : ℚ :=
    if feeModel.type = "percent_plus_fixed" then
      amount * numOrZero feeModel.percent + numOrZero feeModel.fixed
    else if feeModel.type = "percent_plus_fixed_with_cap" then
      let calculatedFee := amount * numOrZero feeModel.percent + numOrZero feeModel.fixed
      match feeModel.cap with
      | some cap => min calculatedFee cap
      | none => calculatedFee
    else if feeModel.type = "flat" then
      numOrZero feeModel.flat
    else if feeModel.type = "flat_with_international" then
      if isIntl then numOrZero feeModel.flatInternational else numOrZero feeModel.flatDomestic
    else if feeModel.type = "wire" then
      match feeModel.internationalMultiplier with
      | some m => if isIntl && (m != 0) then numOrZero feeModel.flat * m else numOrZero feeModel.flat
      | none => numOrZero feeModel.flat
    else if feeModel.type = "free" then
      0
    else
      0
  max 0 fee

/-- The monthly aggregate fee (component source, lines 70–72):
`feePerTransaction * monthlyVolume`. -/
def monthlyFees (feePerTx : ℚ) (monthlyVolume : ℚ) : ℚ :=
  feePerTx * monthlyVolume

/-- The settlement-time display value (component source, lines 74–83):
the timing label when truthy, else `internationalDays` when the transaction
is international and that field is truthy, else `domesticDays`. The `getD`
defaults are only reached under the truthiness guards, so they never supply
the value. -/
def settlementTime (isIntl : Bool) (settlement : SettlementConfig) : JSVal :=
  if optStrTruthy settlement.settlementTimingLabel then
    JSVal.str (settlement.settlementTimingLabel.getD "")
  else if isIntl && optValTruthy settlement.internationalDays then
    settlement.internationalDays.getD settlement.domesticDays
  else
    settlement.domesticDays

/-- The values the component derives and renders for one input state. -/
structure SimOutput where
  isInternational : Bool
  feePerTransaction : ℚ
  monthlyFees : ℚ
  settlementTime : JSVal
  deriving DecidableEq

/-- The derivation performed by the `CostTimeSimulator` component (source,
lines 12–83): when the scenario carries no economics configuration it
returns `null` (modelled as `none`) before deriving anything; otherwise it
derives the internationality flag, the per-transaction fee, the monthly
aggregate and the settlement-time display. -/
def CostTimeSimulator (scenario : Scenario) (amount monthlyVolume : ℚ) :
    Option SimOutput :=
  match scenario.economics with
  | none => none
  | some economics =>
    let isIntl := isInternational scenario economics
    let fee := feePerTransaction amount economics.feeModel isIntl
    some {
      isInternational := isIntl,
      feePerTransaction := fee,
      monthlyFees := monthlyFees fee monthlyVolume,
      settlementTime := settlementTime isIntl economics.settlement
    }

/-- C1: the derived internationality flag is true exactly when, in priority
order with the first true condition winning, `settlement.internationalDays`
is truthy, or `scenario.transactionType` equals `"International"`, or
`feeModel.type` equals `"flat_with_international"`; otherwise domestic. -/
theorem isInternational_priority (sc : Scenario) (ec : EconomicsConfig) :
    isInternational sc ec =
      (if optValTruthy ec.settlement.internationalDays then true
       else if sc.transactionType = some "International" then true
       else if ec.feeModel.type = "flat_with_international" then true
       else false) := by
  unfold isInternational
  by_cases h1 : optValTruthy ec.settlement.internationalDays = true <;>
    by_cases h2 : sc.transactionType = some "International" <;>
      by_cases h3 : ec.feeModel.type = "flat_with_international" <;>
        simp [h1, h2, h3]

/-- C2 counterexample: the claim says a missing `cap` defaults to `0`, which
would force the fee to `0` whenever `cap` is absent; the source instead
applies no cap at all when `cap` is undefined (`cap !== undefined` guard),
so at amount 10 with percent 1 and no cap the code yields 10, not 0. -/
theorem feePerTransaction_cap_default_cex :
    ¬ ∀ (amount : ℚ) (fm : FeeModel) (intl : Bool),
        fm.type = "percent_plus_fixed_with_cap" →
        feePerTransaction amount fm intl =
          max 0 (min (amount * fm.percent.getD 0 + fm.fixed.getD 0) (fm.cap.getD 0)) := by
  intro h
  have hh := h 10 ⟨"percent_plus_fixed_with_cap", some 1, none, none, none, none, none, none⟩
    false rfl
  have hcode : feePerTransaction 10
      ⟨"percent_plus_fixed_with_cap", some 1, none, none, none, none, none, none⟩ false = 10 := by
    simp [feePerTransaction, numOrZero]
  rw [hcode] at hh
  simp only [Option.getD_some, Option.getD_none] at hh
  rw [min_def, max_def] at hh
  norm_num at hh

/-- C2 (amended): for a fee model of type `percent_plus_fixed_with_cap`, the
per-transaction fee is `max 0 (min (amount*percent + fixed) cap)` when `cap`
is present, and `max 0 (amount*percent + fixed)` — no cap applied — when
`cap` is absent; missing `percent` and `fixed` default to `0`. -/
theorem feePerTransaction_with_cap (amount : ℚ) (fm : FeeModel) (intl : Bool)
    (h : fm.type = "percent_plus_fixed_with_cap") :
    feePerTransaction amount fm intl =
      max 0 (match fm.cap with
        | some c => min (amount * fm.percent.getD 0 + fm.fixed.getD 0) c
        | none => amount * fm.percent.getD 0 + fm.fixed.getD 0) := by
  rcases hc : fm.cap with _ | c <;>
    simp [feePerTransaction, h, hc, numOrZero]

/-- C2 witness: the spec's own worked example — amount 100, percent 0.029,
fixed 0.30, cap 1.80 — caps the fee at 1.80. -/
theorem feePerTransaction_with_cap_witness :
    feePerTransaction 100
      ⟨"percent_plus_fixed_with_cap", some (29/1000), some (3/10), none, some (9/5),
        none, none, none⟩ false = 9/5 := by
  have h := feePerTransaction_with_cap 100
    ⟨"percent_plus_fixed_with_cap", some (29/1000), some (3/10), none, some (9/5),
      none, none, none⟩ false rfl
  rw [h]
  simp only [Option.getD_some, Option.getD_none]
  rw [min_def, max_def]
  norm_num

/-- C6: for every amount, fee model (of any variant, with any optional
fields omitted) and internationality value, the computed per-transaction
fee is non-negative, thanks to the final `Math.max(0, fee)` clamp. -/
theorem feePerTransaction_nonneg (amount : ℚ) (fm : FeeModel) (intl : Bool) :
    0 ≤ feePerTransaction amount fm intl := by
  unfold feePerTransaction
  exact le_max_left 0 _

/-- Concrete configuration for the C3 counterexample: a flat fee model, a
settlement with `internationalDays` present but numerically `0` and no
timing label. -/
def zeroDaysEc : EconomicsConfig :=
  { feeModel := { type := "flat", flat := some 1 },
    settlement := { domesticDays := JSVal.num 2, internationalDays := some (JSVal.num 0) } }

/-- Scenario for the C3 counterexample: international via `transactionType`. -/
def zeroDaysSc : Scenario :=
  { transactionType := some "International", economics := some zeroDaysEc }

/-- C3 counterexample: the claim keys the fallback on `internationalDays`
being *present*; the code keys it on truthiness. Here the transaction is
international and `internationalDays` is present but `0` (falsy), so the
claim expects the display `0` while the code returns `domesticDays = 2`. -/
theorem settlementTime_present_cex :
    zeroDaysEc.settlement.settlementTimingLabel = none ∧
    isInternational zeroDaysSc zeroDaysEc = true ∧
    zeroDaysEc.settlement.internationalDays = some (JSVal.num 0) ∧
    settlementTime (isInternational zeroDaysSc zeroDaysEc) zeroDaysEc.settlement =
      JSVal.num 2 ∧
    JSVal.num 2 ≠ JSVal.num 0 := by
  refine ⟨rfl, by decide, rfl, ?_, by decide⟩
  have hi : isInternational zeroDaysSc zeroDaysEc = true := by decide
  rw [hi]
  simp [settlementTime, zeroDaysEc, optStrTruthy, optValTruthy, JSVal.truthy]

/-- C3 (amended): settlement-time selection keys on truthiness, not mere
presence: the display equals `settlementTimingLabel` when that label is
present and non-empty; otherwise it equals `internationalDays` when the
transaction is international and that field is present and truthy (nonzero
number / non-empty string); otherwise it equals `domesticDays` — in every
case returned as-is with no unit coercion. -/
theorem settlementTime_priority_truthy (intl : Bool) (s : SettlementConfig) :
    (∀ label : String, s.settlementTimingLabel = some label → label ≠ "" →
        settlementTime intl s = JSVal.str label) ∧
    (optStrTruthy s.settlementTimingLabel = false →
      (∀ d : JSVal, s.internationalDays = some d → intl = true → d.truthy = true →
          settlementTime intl s = d) ∧
      ((intl = false ∨ optValTruthy s.internationalDays = false) →
          settlementTime intl s = s.domesticDays)) := by
  refine ⟨?_, ?_⟩
  · intro label hl hne
    simp [settlementTime, optStrTruthy, hl, hne]
  · intro hfalse
    refine ⟨?_, ?_⟩
    · intro d hd hintl htr
      simp [settlementTime, hfalse, hd, hintl, optValTruthy, htr]
    · intro hcase
      rcases hcase with h | h <;> simp [settlementTime, hfalse, h]

/-- C3 witness: the spec's label-priority example — with
`settlementTimingLabel = "Typically T+1"` set, the display equals that label
even though `internationalDays` and `domesticDays` are also set. -/
theorem settlementTime_priority_truthy_witness :
    settlementTime true
      { domesticDays := JSVal.num 2, internationalDays := some (JSVal.num 4),
        settlementTimingLabel := some "Typically T+1" } = JSVal.str "Typically T+1" :=
  (settlementTime_priority_truthy true
      { domesticDays := JSVal.num 2, internationalDays := some (JSVal.num 4),
        settlementTimingLabel := some "Typically T+1" }).1 "Typically T+1" rfl (by decide)

/-- The fee model of the spec's flat-with-international worked example. -/
def fwiModel : FeeModel :=
  { type := "flat_with_international", flatDomestic := some 30, flatInternational := some 50 }

/-- Economics pairing `fwiModel` with a settlement that has no
`internationalDays`. -/
def fwiEc : EconomicsConfig :=
  { feeModel := fwiModel, settlement := { domesticDays := JSVal.num 1 } }

/-- Scenario for `fwiEc` whose `transactionType` is not `"International"`. -/
def fwiSc : Scenario := { transactionType := some "Domestic", economics := some fwiEc }

/-- C4 counterexample: with `internationalDays` absent and `transactionType`
not `"International"`, the claim expects the domestic flat fee 30; but the
third disjunct of the internationality rule makes every
`flat_with_international` fee model international, so the code yields 50. -/
theorem flat_with_international_domestic_cex :
    fwiEc.settlement.internationalDays = none ∧
    fwiSc.transactionType ≠ some "International" ∧
    feePerTransaction 100 fwiEc.feeModel (isInternational fwiSc fwiEc) = 50 ∧
    feePerTransaction 100 fwiEc.feeModel (isInternational fwiSc fwiEc) ≠ 30 := by
  have hi : isInternational fwiSc fwiEc = true := by decide
  have hfee : feePerTransaction 100 fwiEc.feeModel (isInternational fwiSc fwiEc) = 50 := by
    rw [hi]
    simp [feePerTransaction, fwiEc, fwiModel, numOrZero, max_def]
  refine ⟨rfl, by decide, hfee, ?_⟩
  rw [hfee]
  norm_num

/-- C4 (amended): the first half of the claim holds, and the second half is
corrected: because `feeModel.type = "flat_with_international"` itself makes
the transaction international, the per-transaction fee for the model
`{flatDomestic := 30, flatInternational := 50}` equals 50 for every scenario
and amount — also when `internationalDays` is absent and `transactionType`
is not `"International"` — so `flatDomestic` is never selected. -/
theorem flat_with_international_fee (amount : ℚ) (sc : Scenario) (ec : EconomicsConfig)
    (h : ec.feeModel = { type := "flat_with_international", flatDomestic := some 30,
                         flatInternational := some 50 }) :
    feePerTransaction amount ec.feeModel (isInternational sc ec) = 50 := by
  have hi : isInternational sc ec = true := by
    simp [isInternational, h]
  rw [h, hi]
  simp [feePerTransaction, numOrZero, max_def]

/-- C4 witness: the amended fee equation evaluated at the concrete scenario
with `internationalDays` absent and a `"Domestic"` transaction type. -/
theorem flat_with_international_fee_witness :
    feePerTransaction 100 fwiEc.feeModel (isInternational fwiSc fwiEc) = 50 :=
  flat_with_international_fee 100 fwiSc fwiEc rfl

/-- C5: for every scenario carrying an economics configuration, every amount
and every monthly volume (the slider extremes 1 and 2000 included), the
monthly aggregate output equals the per-transaction fee output multiplied by
the volume; the arithmetic is exact, with no rounding in the computation. -/
theorem monthlyFees_eq_fee_mul_volume (sc : Scenario) (ec : EconomicsConfig)
    (amount vol : ℚ) (h : sc.economics = some ec) :
    ∃ out : SimOutput, CostTimeSimulator sc amount vol = some out ∧
      out.monthlyFees = out.feePerTransaction * vol := by
  unfold CostTimeSimulator
  rw [h]
  exact ⟨_, rfl, rfl⟩

/-- Economics configuration for the C5 witness. -/
def volEc : EconomicsConfig :=
  { feeModel := { type := "percent_plus_fixed", percent := some (19/1000), fixed := some (1/10) },
    settlement := { domesticDays := JSVal.num 1 } }

/-- Scenario for the C5 witness. -/
def volSc : Scenario := { transactionType := some "Domestic", economics := some volEc }

/-- C5 witness: the aggregate equation at the volume extreme 2000. -/
theorem monthlyFees_eq_fee_mul_volume_witness :
    ∃ out : SimOutput, CostTimeSimulator volSc 50 2000 = some out ∧
      out.monthlyFees = out.feePerTransaction * 2000 :=
  monthlyFees_eq_fee_mul_volume volSc volEc 50 2000 rfl

/-- C7 counterexample: the claim's formula multiplies by the multiplier
whenever the transaction is international (a missing multiplier acting as 1);
the code's guard `isInternational && feeModel.internationalMultiplier`
applies the multiplier only when it is truthy, so a present multiplier of
`0` is ignored. At amount 100, flat 10, multiplier 0, international: the
wire branch sets `fee = 10`, the guard `0` is falsy so no multiplication
happens, and the clamp returns 10 — while the claim's `flat * multiplier`
yields `10 * 0 = 0`. The first conjunct is the code's value, the second
that it differs from the claim's value there, the third the refutation of
the claim as stated. -/
theorem wire_multiplier_zero_cex :
    feePerTransaction 100 ⟨"wire", none, none, some 10, none, none, none, some 0⟩ true = 10 ∧
    (10 : ℚ) ≠ (some (10:ℚ)).getD 0 * (some (0:ℚ)).getD 1 ∧
    ¬ ∀ (amount : ℚ) (fm : FeeModel) (intl : Bool), fm.type = "wire" →
        feePerTransaction amount fm intl =
          (if intl then fm.flat.getD 0 * fm.internationalMultiplier.getD 1
           else fm.flat.getD 0) := by
  have hcode : feePerTransaction 100 ⟨"wire", none, none, some 10, none, none, none, some 0⟩
      true = 10 := by
    simp [feePerTransaction, numOrZero, max_def]
  refine ⟨hcode, by norm_num [Option.getD_some], ?_⟩
  intro h
  have hh := h 100 ⟨"wire", none, none, some 10, none, none, none, some 0⟩ true rfl
  rw [hcode] at hh
  simp only [Option.getD_some, if_true] at hh
  norm_num at hh

/-- C7 (amended): for a wire fee model the multiplier is applied only when
the transaction is international and the multiplier is present and truthy
(nonzero); otherwise the fee is the flat amount, a missing flat defaulting
to 0; the result is then clamped non-negative. -/
theorem feePerTransaction_wire (amount : ℚ) (fm : FeeModel) (intl : Bool)
    (h : fm.type = "wire") :
    feePerTransaction amount fm intl =
      max 0 (match fm.internationalMultiplier with
        | some m => if intl && (m != 0) then fm.flat.getD 0 * m else fm.flat.getD 0
        | none => fm.flat.getD 0) := by
  rcases hm : fm.internationalMultiplier with _ | m <;>
    simp [feePerTransaction, h, hm, numOrZero]

/-- C7 witness: flat 20 with multiplier 5/4 on an international wire is 25. -/
theorem feePerTransaction_wire_witness :
    feePerTransaction 100 ⟨"wire", none, none, some 20, none, none, none, some (5/4)⟩
      true = 25 := by
  have h := feePerTransaction_wire 100
    ⟨"wire", none, none, some 20, none, none, none, some (5/4)⟩ true rfl
  rw [h]
  norm_num [Option.getD_some, max_def]

/-- C8: a fee model whose `type` matches none of the six recognized variants
falls through every branch and yields fee 0 silently; the embedding is a
total function, so no error can be raised. -/
theorem feePerTransaction_unknown_type (amount : ℚ) (fm : FeeModel) (intl : Bool)
    (h1 : fm.type ≠ "percent_plus_fixed") (h2 : fm.type ≠ "percent_plus_fixed_with_cap")
    (h3 : fm.type ≠ "flat") (h4 : fm.type ≠ "flat_with_international")
    (h5 : fm.type ≠ "wire") (h6 : fm.type ≠ "free") :
    feePerTransaction amount fm intl = 0 := by
  simp [feePerTransaction, h1, h2, h3, h4, h5, h6]

/-- C8 witness: an unrecognized variant tag yields fee 0. -/
theorem feePerTransaction_unknown_type_witness :
    feePerTransaction 100 ⟨"crypto", none, none, none, none, none, none, none⟩ false = 0 :=
  feePerTransaction_unknown_type 100 ⟨"crypto", none, none, none, none, none, none, none⟩
    false (by decide) (by decide) (by decide) (by decide) (by decide) (by decide)

/-- C9: when the scenario carries no economics configuration, the component
returns `null` (modelled as `none`) before deriving any fee or settlement
value; the embedding is total, so nothing is thrown. -/
theorem CostTimeSimulator_no_economics (sc : Scenario) (amount vol : ℚ)
    (h : sc.economics = none) :
    CostTimeSimulator sc amount vol = none := by
  unfold CostTimeSimulator
  rw [h]

/-- C9 witness: a scenario without economics yields no simulator output. -/
theorem CostTimeSimulator_no_economics_witness :
    CostTimeSimulator { transactionType := some "Domestic" } 50 200 = none :=
  CostTimeSimulator_no_economics { transactionType := some "Domestic" } 50 200 rfl

/-- C10: a present `internationalDays` of numeric `0` behaves as if absent:
with no other international signal the derived flag is domestic, and with no
timing label the settlement display is `domesticDays` rather than `0`,
because both checks test truthiness rather than mere presence. -/
theorem internationalDays_zero_behaves_absent (sc : Scenario) (ec : EconomicsConfig)
    (h0 : ec.settlement.internationalDays = some (JSVal.num 0))
    (h1 : sc.transactionType ≠ some "International")
    (h2 : ec.feeModel.type ≠ "flat_with_international")
    (h3 : ec.settlement.settlementTimingLabel = none) :
    isInternational sc ec = false ∧
    settlementTime (isInternational sc ec) ec.settlement = ec.settlement.domesticDays := by
  have hi : isInternational sc ec = false := by
    simp [isInternational, h0, optValTruthy, JSVal.truthy, h1, h2]
  refine ⟨hi, ?_⟩
  rw [hi]
  simp [settlementTime, h3, optStrTruthy]

/-- Economics configuration for the C10 witness. -/
def zeroDaysDomEc : EconomicsConfig :=
  { feeModel := { type := "flat", flat := some 1 },
    settlement := { domesticDays := JSVal.num 2, internationalDays := some (JSVal.num 0) } }

/-- Scenario for the C10 witness: a domestic transaction. -/
def zeroDaysDomSc : Scenario :=
  { transactionType := some "Domestic", economics := some zeroDaysDomEc }

/-- C10 witness: the concrete domestic scenario with `internationalDays = 0`
is classified domestic and displays its `domesticDays`. -/
theorem internationalDays_zero_behaves_absent_witness :
    isInternational zeroDaysDomSc zeroDaysDomEc = false ∧
    settlementTime (isInternational zeroDaysDomSc zeroDaysDomEc) zeroDaysDomEc.settlement =
      zeroDaysDomEc.settlement.domesticDays :=
  internationalDays_zero_behaves_absent zeroDaysDomSc zeroDaysDomEc rfl (by decide)
    (by decide) rfl
